import Mathlib

set_option autoImplicit false

namespace AlxAuth

/-- A row of the users table, from
src/0x03-user_authentication_service/user.py: integer primary key,
non-nullable `email` and `hashed_password`, nullable `session_id` and
`reset_token`. -/
structure User where
  id : Nat
  email : String
  hashed_password : String
  session_id : Option String
  reset_token : Option String
deriving DecidableEq, Repr

/-- A Python value assigned through `setattr` in `DB.update_user`
(src/db.py).  The call sites in auth.py use strings for `email`,
`hashed_password`, `session_id` and `reset_token`, Python `None` to clear
`session_id`/`reset_token`, and an integer for `id`. -/
inductive Value where
  | str (s : String)
  | nat (n : Nat)
  | null
deriving DecidableEq, Repr

/-- Errors raised by the DB layer: `NoResultFound` (lookup miss, also what
`find_user_by` wraps every query exception into) and `ValueError`
(non-whitelisted update key; also what `Auth` re-raises). -/
inductive DBError where
  | noResultFound
  | valueError
deriving DecidableEq, Repr

/-- `VALID_FIELDS` from src/db.py line 27. -/
def VALID_FIELDS : List String :=
  ["id", "email", "hashed_password", "session_id", "reset_token"]

/-- `DB.find_user_by` (src/db.py) at a single-criterion call site:
`session.query(User).filter_by(**kwargs).one()` returns the unique match;
zero or multiple matches raise, and the `except Exception` clause turns any
exception into `NoResultFound` (modelled as `none`).  The
`InvalidRequestError` guard never fires at the call sites modelled here,
because every caller passes exactly one key drawn from `VALID_FIELDS`. -/
def findUserBy (p : User → Bool) (db : List User) : Option User :=
  match db.filter p with
  | [u] => some u
  | _ => none

/-- One `setattr(user, k, v)` from the loop in `DB.update_user`.  The
fall-through arms (wrong value shape for a field) never arise at the call
sites modelled here. -/
def setField (u : User) (k : String) (v : Value) : User :=
  if k = "id" then
    match v with
    | Value.nat n => { u with id := n }
    | _ => u
  else if k = "email" then
    match v with
    | Value.str s => { u with email := s }
    | _ => u
  else if k = "hashed_password" then
    match v with
    | Value.str s => { u with hashed_password := s }
    | _ => u
  else if k = "session_id" then
    match v with
    | Value.str s => { u with session_id := some s }
    | Value.null => { u with session_id := none }
    | _ => u
  else if k = "reset_token" then
    match v with
    | Value.str s => { u with reset_token := some s }
    | Value.null => { u with reset_token := none }
    | _ => u
  else u

/-- The `for k, v in kwargs.items()` loop of `DB.update_user` (src/db.py):
each key is first checked against `VALID_FIELDS` (raising `ValueError` if
absent — modelled as `some DBError.valueError`) and then assigned with
`setattr`.  A raised `ValueError` aborts the loop, but the assignments
already made stay on the session-held record. -/
def applyKwargs (u : User) : List (String × Value) → User × Option DBError
  | [] => (u, none)
  | (k, v) :: rest =>
    if k ∈ VALID_FIELDS then applyKwargs (setField u k v) rest
    else (u, some DBError.valueError)

/-- `DB.update_user` (src/db.py lines 105-122): looks the user up by id
(`NoResultFound` propagates if absent), then runs the validate-and-setattr
loop and commits.  When the loop raises `ValueError`, `session.commit()` is
skipped, but the partially mutated record remains in the long-lived session
(`self.__session` persists across calls and the sessionmaker default
`autoflush=True` flushes it on the next query), so the returned state keeps
the partial mutation. -/
def update_user (db : List User) (user_id : Nat) (kwargs : List (String × Value)) :
    List User × Option DBError :=
  match findUserBy (fun u => u.id == user_id) db with
  | none => (db, some DBError.noResultFound)
  | some u =>
    let r := applyKwargs u kwargs
    (db.map (fun x => if x.id == user_id then r.1 else x), r.2)

/-- Largest id present, used to model the autoincrement primary key. -/
def maxId (db : List User) : Nat := db.foldr (fun u m => max u.id m) 0

/-- `DB.add_user` (src/db.py lines 64-81): returns `None` without inserting
when `email` or `hashed_password` is falsy (the empty string for `str`
arguments); otherwise inserts a fresh row (autoincrement id, null
`session_id` and `reset_token`) and returns it. -/
def add_user (db : List User) (email hashed_password : String) :
    List User × Option User :=
  if email = "" || hashed_password = "" then (db, none)
  else
    let u : User :=
      { id := maxId db + 1, email := email, hashed_password := hashed_password,
        session_id := none, reset_token := none }
    (db ++ [u], some u)

/-- `Auth.register_user` (src/0x03-user_authentication_service/auth.py):
looks the email up; a hit raises `ValueError` (not caught by the
`except NoResultFound`), a miss falls through to `add_user`.  `hashed`
stands for `_hash_password(password)`, the bcrypt digest with a random
salt, passed in explicitly as an oracle argument. -/
def register_user (db : List User) (email hashed : String) :
    List User × Except DBError (Option User) :=
  match findUserBy (fun u => u.email == email) db with
  | some _ => (db, Except.error DBError.valueError)
  | none =>
    let r := add_user db email hashed
    (r.1, Except.ok r.2)

/-- `Auth.valid_login` (auth.py): lookup miss returns `False`, otherwise
the result of `bcrypt.checkpw(password, user.hashed_password)`, modelled by
the abstract verifier `checkpw`. -/
def valid_login (checkpw : String → String → Bool) (db : List User)
    (email password : String) : Bool :=
  match findUserBy (fun u => u.email == email) db with
  | none => false
  | some u => checkpw password u.hashed_password

/-- `Auth.create_session` (auth.py): lookup by email, store a fresh uuid in
`session_id`, return it; `except NoResultFound` returns `None` (`Except.ok
none`).  `fresh` stands for `_generate_uuid()`.  A `ValueError` escaping
`update_user` would propagate uncaught (`Except.error`), but the literal
key `"session_id"` is whitelisted, so that arm is unreachable. -/
def create_session (db : List User) (email fresh : String) :
    List User × Except DBError (Option String) :=
  match findUserBy (fun u => u.email == email) db with
  | none => (db, Except.ok none)
  | some u =>
    match update_user db u.id [("session_id", Value.str fresh)] with
    | (db2, some DBError.noResultFound) => (db2, Except.ok none)
    | (db2, some DBError.valueError) => (db2, Except.error DBError.valueError)
    | (db2, none) => (db2, Except.ok (some fresh))

/-- `Auth.get_user_from_session_id` (auth.py): `None` session id returns
`None` at once; otherwise lookup by `session_id`, returning the owning
user's email, or `None` on `NoResultFound`. -/
def get_user_from_session_id (db : List User) (session_id : Option String) :
    Option String :=
  match session_id with
  | none => none
  | some s => (findUserBy (fun u => u.session_id == some s) db).map (fun u => u.email)

/-- `Auth.destroy_session` (auth.py): lookup by id, set `session_id` to
`None`; `except NoResultFound: pass` swallows a miss.  A `ValueError` from
`update_user` would escape, but the literal key `"session_id"` is
whitelisted, so that arm is unreachable. -/
def destroy_session (db : List User) (user_id : Nat) :
    List User × Option DBError :=
  match findUserBy (fun u => u.id == user_id) db with
  | none => (db, none)
  | some u =>
    match update_user db u.id [("session_id", Value.null)] with
    | (db2, some DBError.valueError) => (db2, some DBError.valueError)
    | (db2, _) => (db2, none)

/-- `Auth.update_password` (auth.py): lookup by `reset_token`; a miss
raises `ValueError`.  On a hit, one `update_user` call sets
`hashed_password` to the new digest and clears `reset_token`.  Any error
out of that call surfaces to the caller as `ValueError` as well
(`NoResultFound` is re-raised as `ValueError`; a `ValueError` propagates).
`newHashed` stands for `_hash_password(password)`. -/
def update_password (db : List User) (reset_token newHashed : String) :
    List User × Option DBError :=
  match findUserBy (fun u => u.reset_token == some reset_token) db with
  | none => (db, some DBError.valueError)
  | some u =>
    match update_user db u.id
        [("hashed_password", Value.str newHashed), ("reset_token", Value.null)] with
    | (db2, some _) => (db2, some DBError.valueError)
    | (db2, none) => (db2, none)

/-- Modelled from the spec: the body of `Auth.get_reset_password_token` in
src/0x03-user_authentication_service/auth.py is not executable source (the
lines under its docstring are a mis-pasted copy of the Flask route handler
at inconsistent indentation), so the operation is modelled from the spec
sentence: requires email to exist (else fails with a ValueError-equivalent,
modelled as `none`); generates a fresh token, stores it in the user's
reset-token field, and returns it.  `fresh` stands for the generated
token. -/
def issueResetToken (db : List User) (email fresh : String) :
    List User × Option String :=
  match findUserBy (fun u => u.email == email) db with
  | none => (db, none)
  | some u =>
    ((update_user db u.id [("reset_token", Value.str fresh)]).1, some fresh)

/-- The `POST /reset_password` route of
src/0x03-user_authentication_service/app.py: it first calls
`AUTH.create_session(email)` (overwriting the stored session token), aborts
with 403 when that returns a falsy value, and only then issues the reset
token.  The result is the issued reset token, or `none` for the 403 /
error outcomes. -/
def reset_password_route (db : List User) (email sessFresh tokFresh : String) :
    List User × Option String :=
  match create_session db email sessFresh with
  | (db2, Except.ok (some t)) =>
    if t = "" then (db2, none)
    else issueResetToken db2 email tokFresh
  | (db2, _) => (db2, none)

namespace SessionAuth

/-- Python dict assignment `d[k] = v`: overwrite the binding when the key
is present, append otherwise. -/
def dictInsert (m : List (String × String)) (k v : String) :
    List (String × String) :=
  if m.any (fun p => p.1 == k) then
    m.map (fun p => if p.1 == k then (k, v) else p)
  else m ++ [(k, v)]

/-- Python `d.get(k, None)`. -/
def dictGet (m : List (String × String)) (k : String) : Option String :=
  (m.find? (fun p => p.1 == k)).map (fun p => p.2)

/-- `SessionAuth.create_session`
(src/0x02-Session_authentication/api/v1/auth/session_auth.py): a falsy or
non-string `user_id` returns `None`; otherwise the code executes
`user_id_by_session_id[user_id] = session_id` — the USER id is the key and
the fresh session id the value — and returns the session id.  `m` is the
class-level dict and `fresh` stands for `str(uuid4())`. -/
def create_session (m : List (String × String)) (user_id : Option String)
    (fresh : String) : List (String × String) × Option String :=
  match user_id with
  | none => (m, none)
  | some uid =>
    if uid = "" then (m, none)
    else (dictInsert m uid fresh, some fresh)

/-- `SessionAuth.user_id_for_session_id` (same file): a falsy or non-string
session id returns `None`; otherwise `user_id_by_session_id.get(session_id,
None)`. -/
def user_id_for_session_id (m : List (String × String))
    (session_id : Option String) : Option String :=
  match session_id with
  | none => none
  | some s => if s = "" then none else dictGet m s

end SessionAuth

/-! Infrastructure lemmas: how `findUserBy` and the write-back `map` of
`update_user` behave on a state decomposed as `l1 ++ u :: l2`, where `u` is
the unique record matching the lookup. -/

theorem beq_false_of_ne {α : Type} [BEq α] [LawfulBEq α] {a b : α} (h : a ≠ b) :
    (a == b) = false :=
  beq_eq_false_iff_ne.mpr h

theorem filter_eq_nil_of {α : Type} (p : α → Bool) (l : List α)
    (h : ∀ v ∈ l, p v = false) : l.filter p = [] := by
  induction l with
  | nil => rfl
  | cons a t ih =>
    have ha := h a (by simp)
    simp only [List.filter_cons, ha]
    exact ih (fun v hv => h v (by simp [hv]))

theorem filter_sandwich {α : Type} (p : α → Bool) (l1 l2 : List α) (u : α)
    (hu : p u = true) (h1 : ∀ v ∈ l1, p v = false)
    (h2 : ∀ v ∈ l2, p v = false) :
    (l1 ++ u :: l2).filter p = [u] := by
  rw [List.filter_append, filter_eq_nil_of p l1 h1, List.filter_cons,
    filter_eq_nil_of p l2 h2]
  simp [hu]

theorem findUserBy_sandwich (p : User → Bool) (l1 l2 : List User) (u : User)
    (hu : p u = true) (h1 : ∀ v ∈ l1, p v = false)
    (h2 : ∀ v ∈ l2, p v = false) :
    findUserBy p (l1 ++ u :: l2) = some u := by
  unfold findUserBy
  rw [filter_sandwich p l1 l2 u hu h1 h2]

theorem findUserBy_none (p : User → Bool) (db : List User)
    (h : ∀ v ∈ db, p v = false) : findUserBy p db = none := by
  unfold findUserBy
  rw [filter_eq_nil_of p db h]

theorem map_noop (l : List User) (r : User) (uid : Nat)
    (h : ∀ v ∈ l, v.id ≠ uid) :
    l.map (fun x => if x.id == uid then r else x) = l := by
  induction l with
  | nil => rfl
  | cons a t ih =>
    have ha : (a.id == uid) = false := beq_false_of_ne (h a (by simp))
    simp only [List.map_cons, ha, Bool.false_eq_true, if_false]
    rw [ih (fun v hv => h v (by simp [hv]))]

theorem map_sandwich (l1 l2 : List User) (u r : User)
    (h1 : ∀ v ∈ l1, v.id ≠ u.id) (h2 : ∀ v ∈ l2, v.id ≠ u.id) :
    (l1 ++ u :: l2).map (fun x => if x.id == u.id then r else x) =
      l1 ++ r :: l2 := by
  rw [List.map_append, List.map_cons, map_noop l1 r u.id h1,
    map_noop l2 r u.id h2]
  simp

/-- `update_user` on a state holding exactly one record with the target id:
the outcome is the validate-and-setattr loop applied to that record, written
back in place. -/
theorem update_user_sandwich (l1 l2 : List User) (u : User)
    (kwargs : List (String × Value))
    (h1 : ∀ v ∈ l1, v.id ≠ u.id) (h2 : ∀ v ∈ l2, v.id ≠ u.id) :
    update_user (l1 ++ u :: l2) u.id kwargs =
      (l1 ++ (applyKwargs u kwargs).1 :: l2, (applyKwargs u kwargs).2) := by
  unfold update_user
  rw [findUserBy_sandwich (fun v => v.id == u.id) l1 l2 u (by simp)
    (fun v hv => beq_false_of_ne (h1 v hv))
    (fun v hv => beq_false_of_ne (h2 v hv))]
  simp only []
  rw [map_sandwich l1 l2 u _ h1 h2]

/-- The loop of `update_user` when every key is whitelisted: all the
assignments are applied, no error. -/
theorem applyKwargs_valid (kwargs : List (String × Value)) (u : User)
    (h : ∀ kv ∈ kwargs, kv.1 ∈ VALID_FIELDS) :
    applyKwargs u kwargs =
      (kwargs.foldl (fun x kv => setField x kv.1 kv.2) u, none) := by
  induction kwargs generalizing u with
  | nil => rfl
  | cons kv rest ih =>
    have hk : kv.1 ∈ VALID_FIELDS := h kv (by simp)
    simp only [applyKwargs, if_pos hk, List.foldl_cons]
    exact ih (setField u kv.1 kv.2) (fun x hx => h x (by simp [hx]))

/-- The loop of `update_user` when some key is not whitelisted: the loop
raises `ValueError`, but the assignments before the first invalid key have
already been applied to the record. -/
theorem applyKwargs_invalid (kwargs : List (String × Value)) (u : User)
    (h : ∃ kv ∈ kwargs, kv.1 ∉ VALID_FIELDS) :
    applyKwargs u kwargs =
      ((kwargs.takeWhile (fun kv => decide (kv.1 ∈ VALID_FIELDS))).foldl
          (fun x kv => setField x kv.1 kv.2) u,
       some DBError.valueError) := by
  induction kwargs generalizing u with
  | nil => exact absurd h (by simp)
  | cons kv rest ih =>
    by_cases hk : kv.1 ∈ VALID_FIELDS
    · have hrest : ∃ x ∈ rest, x.1 ∉ VALID_FIELDS := by
        rcases h with ⟨x, hx, hxbad⟩
        rcases List.mem_cons.mp hx with rfl | hxr
        · exact absurd hk hxbad
        · exact ⟨x, hxr, hxbad⟩
      simp only [applyKwargs, if_pos hk, List.takeWhile_cons,
        decide_eq_true hk, List.foldl_cons]
      exact ih (setField u kv.1 kv.2) hrest
    · simp only [applyKwargs, if_neg hk, List.takeWhile_cons,
        decide_eq_false hk, Bool.false_eq_true, if_false, List.foldl_nil]

/-! Claim theorems. -/

/-- Claim C2 (code bug, evaluated at the failing input): starting from an
empty class map, `SessionAuth.create_session` for user id u1 returns the
fresh session id t1, but the code stores the pair keyed by the USER id
(`user_id_by_session_id[user_id] = session_id`), so
`user_id_for_session_id` on the returned token yields `none` instead of
u1: the class dictionary does not map session ids to user ids. -/
theorem session_auth_roundtrip_bug :
    (SessionAuth.create_session [] (some "u1") "t1").2 = some "t1" ∧
    SessionAuth.user_id_for_session_id
        (SessionAuth.create_session [] (some "u1") "t1").1
        (SessionAuth.create_session [] (some "u1") "t1").2 = none ∧
    (SessionAuth.create_session [] (some "u1") "t1").1 = [("u1", "t1")] := by
  decide

/-- Claim C3 (counterexample): an update whose second key is invalid is
rejected with `ValueError`, yet the first change (the email) has already
been applied to the target record — the claim that no field is changed
regardless of the position of the invalid key is false. -/
theorem update_user_not_atomic_cex :
    (update_user [User.mk 1 "old@x.com" "H" none none] 1
        [("email", Value.str "new@x.com"), ("nope", Value.str "x")]).2
      = some DBError.valueError ∧
    (update_user [User.mk 1 "old@x.com" "H" none none] 1
        [("email", Value.str "new@x.com"), ("nope", Value.str "x")]).1
      ≠ [User.mk 1 "old@x.com" "H" none none] ∧
    (update_user [User.mk 1 "old@x.com" "H" none none] 1
        [("email", Value.str "new@x.com"), ("nope", Value.str "x")]).1
      = [User.mk 1 "new@x.com" "H" none none] := by
  decide

/-- Claim C4 (counterexample): the key "id" is in `VALID_FIELDS`, so
`update_user` accepts it without `ValueError` and changes the user's
unique identifier from 1 to 2 — the claimed whitelist {email,
hashed_password, session_id, reset_token} and the immutability of the id
are both false. -/
theorem update_user_id_mutable_cex :
    update_user [User.mk 1 "a@x.com" "H" none none] 1 [("id", Value.nat 2)] =
      ([User.mk 2 "a@x.com" "H" none none], none) := by
  decide

/-- Claim C7 (counterexample): registering the empty email twice never
raises — `add_user` refuses falsy emails and returns `None`, so the first
call stores nothing, the second call again finds no record and returns
`Except.ok none` instead of the claimed AlreadyExists failure, and the
store holds zero records for that email, not one. -/
theorem register_empty_email_cex :
    register_user (register_user ([] : List User) "" "H1").1 "" "H2" =
      ([], Except.ok none) ∧
    ((register_user ([] : List User) "" "H1").1.filter
        (fun u => u.email == "")).length = 0 :=
  ⟨rfl, rfl⟩

/-- Claim C3 (amended): an `update_user` call containing a non-whitelisted
key is rejected with `ValueError` and never committed by that call, but it
is not atomic: the changes listed before the first invalid key are already
applied to the session-held record and survive (the shared session flushes
them later); only when the invalid key comes first is the record
unchanged. -/
theorem update_user_partial_apply (l1 l2 : List User) (u : User)
    (kwargs : List (String × Value))
    (h1 : ∀ v ∈ l1, v.id ≠ u.id) (h2 : ∀ v ∈ l2, v.id ≠ u.id)
    (hbad : ∃ kv ∈ kwargs, kv.1 ∉ VALID_FIELDS) :
    update_user (l1 ++ u :: l2) u.id kwargs =
      (l1 ++ (kwargs.takeWhile (fun kv => decide (kv.1 ∈ VALID_FIELDS))).foldl
          (fun x kv => setField x kv.1 kv.2) u :: l2,
       some DBError.valueError) := by
  rw [update_user_sandwich l1 l2 u kwargs h1 h2,
    applyKwargs_invalid kwargs u hbad]

/-- Witness for `update_user_partial_apply`: one user, changes
[email ↦ e@x.com, bad ↦ b]; the update errors but the email is changed. -/
theorem update_user_partial_apply_witness :
    update_user [User.mk 1 "a@x.com" "H" none none] 1
        [("email", Value.str "e@x.com"), ("bad", Value.str "b")] =
      ([User.mk 1 "e@x.com" "H" none none], some DBError.valueError) :=
  update_user_partial_apply [] [] (User.mk 1 "a@x.com" "H" none none)
    [("email", Value.str "e@x.com"), ("bad", Value.str "b")]
    (by simp) (by simp) (by decide)

/-- Claim C4 (amended): `update_user` mutates only fields in the fixed
whitelist `VALID_FIELDS` = {id, email, hashed_password, session_id,
reset_token} — an all-whitelisted change list is applied in full without
error, and a change list containing any other key fails with `ValueError`
— but the whitelist includes "id", so the user's unique identifier CAN be
changed by an update. -/
theorem update_user_whitelist (l1 l2 : List User) (u : User)
    (kwargs : List (String × Value))
    (h1 : ∀ v ∈ l1, v.id ≠ u.id) (h2 : ∀ v ∈ l2, v.id ≠ u.id) :
    ((∀ kv ∈ kwargs, kv.1 ∈ VALID_FIELDS) →
      update_user (l1 ++ u :: l2) u.id kwargs =
        (l1 ++ kwargs.foldl (fun x kv => setField x kv.1 kv.2) u :: l2,
         none)) ∧
    ((∃ kv ∈ kwargs, kv.1 ∉ VALID_FIELDS) →
      (update_user (l1 ++ u :: l2) u.id kwargs).2 = some DBError.valueError) ∧
    (∀ n : Nat, update_user (l1 ++ u :: l2) u.id [("id", Value.nat n)] =
      (l1 ++ { u with id := n } :: l2, none)) := by
  refine ⟨?_, ?_, ?_⟩
  · intro hall
    rw [update_user_sandwich l1 l2 u kwargs h1 h2,
      applyKwargs_valid kwargs u hall]
  · intro hbad
    rw [update_user_sandwich l1 l2 u kwargs h1 h2,
      applyKwargs_invalid kwargs u hbad]
  · intro n
    rw [update_user_sandwich l1 l2 u _ h1 h2]
    rfl

/-- Witness for `update_user_whitelist`: one user; updating the "id" field
to 7 succeeds and changes the identifier. -/
theorem update_user_whitelist_witness :
    update_user [User.mk 1 "a@x.com" "H" none none] 1 [("id", Value.nat 7)] =
      ([User.mk 7 "a@x.com" "H" none none], none) :=
  (update_user_whitelist [] [] (User.mk 1 "a@x.com" "H" none none)
      [("id", Value.nat 7)] (by simp) (by simp)).2.2 7

/-- Claim C7 (amended): for a NON-EMPTY email (and the non-empty bcrypt
digest the first call stores — `add_user` silently refuses falsy
arguments), registering the same email twice from a state without that
email: the first call creates the record, the second call raises
`ValueError` and leaves the store unchanged, still holding exactly one
record for that email. -/
theorem register_twice_spec (db : List User) (email hash1 hash2 : String)
    (hne : email ≠ "") (hh1 : hash1 ≠ "")
    (h0 : ∀ v ∈ db, v.email ≠ email) :
    (register_user db email hash1 =
      (db ++ [User.mk (maxId db + 1) email hash1 none none],
       Except.ok (some (User.mk (maxId db + 1) email hash1 none none)))) ∧
    (register_user (register_user db email hash1).1 email hash2 =
      ((register_user db email hash1).1, Except.error DBError.valueError)) ∧
    (((register_user db email hash1).1.filter
        (fun v => v.email == email)).length = 1) := by
  have hfind : findUserBy (fun v => v.email == email) db = none :=
    findUserBy_none _ db (fun v hv => beq_false_of_ne (h0 v hv))
  have hadd : add_user db email hash1 =
      (db ++ [User.mk (maxId db + 1) email hash1 none none],
       some (User.mk (maxId db + 1) email hash1 none none)) := by
    unfold add_user
    rw [if_neg (by simp [hne, hh1])]
  have h1c : register_user db email hash1 =
      (db ++ [User.mk (maxId db + 1) email hash1 none none],
       Except.ok (some (User.mk (maxId db + 1) email hash1 none none))) := by
    simp only [register_user, hfind, hadd]
  refine ⟨h1c, ?_, ?_⟩
  · have hfind2 : findUserBy (fun v => v.email == email)
        (db ++ [User.mk (maxId db + 1) email hash1 none none]) =
        some (User.mk (maxId db + 1) email hash1 none none) :=
      findUserBy_sandwich _ db [] _ (by simp)
        (fun v hv => beq_false_of_ne (h0 v hv)) (by simp)
    rw [h1c]
    simp only [register_user, hfind2]
  · rw [h1c]
    simp only [List.filter_append,
      filter_eq_nil_of _ db (fun v hv => beq_false_of_ne (h0 v hv))]
    simp

/-- Witness for `register_twice_spec`: registering a@x.com twice on an
empty store. -/
theorem register_twice_spec_witness :
    (register_user ([] : List User) "a@x.com" "H1" =
      ([User.mk 1 "a@x.com" "H1" none none],
       Except.ok (some (User.mk 1 "a@x.com" "H1" none none)))) ∧
    (register_user (register_user ([] : List User) "a@x.com" "H1").1
        "a@x.com" "H2" =
      ((register_user ([] : List User) "a@x.com" "H1").1,
       Except.error DBError.valueError)) ∧
    (((register_user ([] : List User) "a@x.com" "H1").1.filter
        (fun v => v.email == "a@x.com")).length = 1) :=
  register_twice_spec [] "a@x.com" "H1" "H2" (by decide) (by decide) (by simp)

/-- Claim C5: when exactly one record carries the reset token,
`update_password` sets that record's hashed password to the new digest and
clears its reset-token field in the same call, touching no other record;
when no record carries the token it raises `ValueError` and the store is
unchanged — hence a second redemption of the now-consumed token fails with
`ValueError` and leaves the store unchanged. -/
theorem update_password_spec (l1 l2 : List User) (u : User)
    (tok newHashed : String) (hu : u.reset_token = some tok)
    (ht1 : ∀ v ∈ l1, v.reset_token ≠ some tok)
    (ht2 : ∀ v ∈ l2, v.reset_token ≠ some tok)
    (hid1 : ∀ v ∈ l1, v.id ≠ u.id) (hid2 : ∀ v ∈ l2, v.id ≠ u.id) :
    (update_password (l1 ++ u :: l2) tok newHashed =
      (l1 ++ { u with hashed_password := newHashed, reset_token := none } :: l2,
       none)) ∧
    (update_password
        (l1 ++ { u with hashed_password := newHashed, reset_token := none } :: l2)
        tok newHashed =
      (l1 ++ { u with hashed_password := newHashed, reset_token := none } :: l2,
       some DBError.valueError)) ∧
    (∀ db : List User, (∀ v ∈ db, v.reset_token ≠ some tok) →
      update_password db tok newHashed = (db, some DBError.valueError)) := by
  have hnom : ∀ db : List User, (∀ v ∈ db, v.reset_token ≠ some tok) →
      update_password db tok newHashed = (db, some DBError.valueError) := by
    intro db hdb
    have hfind := findUserBy_none (fun v => v.reset_token == some tok) db
      (fun v hv => beq_false_of_ne (hdb v hv))
    simp only [update_password, hfind]
  refine ⟨?_, ?_, hnom⟩
  · have hfind := findUserBy_sandwich (fun v => v.reset_token == some tok)
      l1 l2 u (by simp [hu]) (fun v hv => beq_false_of_ne (ht1 v hv))
      (fun v hv => beq_false_of_ne (ht2 v hv))
    have hupd := update_user_sandwich l1 l2 u
      [("hashed_password", Value.str newHashed), ("reset_token", Value.null)]
      hid1 hid2
    simp only [update_password, hfind, hupd]
    rfl
  · apply hnom
    intro v hv
    rcases List.mem_append.mp hv with h | h
    · exact ht1 v h
    · rcases List.mem_cons.mp h with rfl | h
      · simp
      · exact ht2 v h

/-- Witness for `update_password_spec`: one user holding reset token T;
redeeming sets the new digest and clears T, a second redemption errors. -/
theorem update_password_spec_witness :
    (update_password [User.mk 1 "a@x.com" "H" none (some "T")] "T" "H2" =
      ([User.mk 1 "a@x.com" "H2" none none], none)) ∧
    (update_password [User.mk 1 "a@x.com" "H2" none none] "T" "H2" =
      ([User.mk 1 "a@x.com" "H2" none none], some DBError.valueError)) ∧
    (∀ db : List User, (∀ v ∈ db, v.reset_token ≠ some "T") →
      update_password db "T" "H2" = (db, some DBError.valueError)) :=
  update_password_spec [] [] (User.mk 1 "a@x.com" "H" none (some "T"))
    "T" "H2" rfl (by simp) (by simp) (by simp) (by simp)

/-- Claim C6: under the data-model invariant that at most one record
carries any given email, `valid_login` returns true iff a record exists
for the email and its stored hash verifies against the supplied password
through the verifier (`bcrypt.checkpw`): on the unique matching record the
result is exactly the verifier's verdict, and with no matching record the
result is the value false, not an exception. -/
theorem valid_login_spec (checkpw : String → String → Bool)
    (email password : String) :
    (∀ (l1 l2 : List User) (u : User), u.email = email →
      (∀ v ∈ l1, v.email ≠ email) → (∀ v ∈ l2, v.email ≠ email) →
      valid_login checkpw (l1 ++ u :: l2) email password =
        checkpw password u.hashed_password) ∧
    (∀ db : List User, (∀ v ∈ db, v.email ≠ email) →
      valid_login checkpw db email password = false) := by
  constructor
  · intro l1 l2 u hu hl1 hl2
    have hfind := findUserBy_sandwich (fun v => v.email == email) l1 l2 u
      (by simp [hu]) (fun v hv => beq_false_of_ne (hl1 v hv))
      (fun v hv => beq_false_of_ne (hl2 v hv))
    simp only [valid_login, hfind]
  · intro db hdb
    have hfind := findUserBy_none (fun v => v.email == email) db
      (fun v hv => beq_false_of_ne (hdb v hv))
    simp only [valid_login, hfind]

/-- Witness for `valid_login_spec`: with verifier "digest is X followed by
the password", login succeeds on the registered pair and returns false for
an unknown email. -/
theorem valid_login_spec_witness :
    valid_login (fun p h => h == "X" ++ p)
        [User.mk 1 "a@x.com" "Xpw" none none] "a@x.com" "pw" = true ∧
    valid_login (fun p h => h == "X" ++ p)
        [User.mk 1 "b@y.com" "H" none none] "a@x.com" "pw" = false := by
  constructor
  · have h := (valid_login_spec (fun p h => h == "X" ++ p) "a@x.com" "pw").1
      [] [] (User.mk 1 "a@x.com" "Xpw" none none) rfl (by simp) (by simp)
    exact h.trans (by decide)
  · exact (valid_login_spec (fun p h => h == "X" ++ p) "a@x.com" "pw").2
      [User.mk 1 "b@y.com" "H" none none] (by decide)

/-- Claim C8: destroying the session of the unique holder of token `tok`
clears that record's session-token field without error; resolving the old
token afterwards returns `none`; a second destroy for the same user is a
no-op with no error (state unchanged); and destroying the session of an
absent user id is also a no-op with no error. -/
theorem destroy_session_spec (l1 l2 : List User) (u : User) (tok : String)
    (hu : u.session_id = some tok)
    (hid1 : ∀ v ∈ l1, v.id ≠ u.id) (hid2 : ∀ v ∈ l2, v.id ≠ u.id)
    (hs1 : ∀ v ∈ l1, v.session_id ≠ some tok)
    (hs2 : ∀ v ∈ l2, v.session_id ≠ some tok) :
    (destroy_session (l1 ++ u :: l2) u.id =
      (l1 ++ { u with session_id := none } :: l2, none)) ∧
    (get_user_from_session_id (l1 ++ { u with session_id := none } :: l2)
        (some tok) = none) ∧
    (destroy_session (l1 ++ { u with session_id := none } :: l2) u.id =
      (l1 ++ { u with session_id := none } :: l2, none)) ∧
    (∀ (db : List User) (uid : Nat), (∀ v ∈ db, v.id ≠ uid) →
      destroy_session db uid = (db, none)) := by
  refine ⟨?_, ?_, ?_, ?_⟩
  · have hfind := findUserBy_sandwich (fun v => v.id == u.id) l1 l2 u
      (by simp) (fun v hv => beq_false_of_ne (hid1 v hv))
      (fun v hv => beq_false_of_ne (hid2 v hv))
    have hupd := update_user_sandwich l1 l2 u [("session_id", Value.null)]
      hid1 hid2
    simp only [destroy_session, hfind, hupd]
    rfl
  · have hfind := findUserBy_none
      (fun v => v.session_id == some tok)
      (l1 ++ { u with session_id := none } :: l2) ?_
    · simp only [get_user_from_session_id, hfind]
      rfl
    · intro v hv
      rcases List.mem_append.mp hv with h | h
      · exact beq_false_of_ne (hs1 v h)
      · rcases List.mem_cons.mp h with rfl | h
        · simp
        · exact beq_false_of_ne (hs2 v h)
  · have hfind := findUserBy_sandwich (fun v => v.id == u.id) l1 l2
      { u with session_id := none } (by simp)
      (fun v hv => beq_false_of_ne (hid1 v hv))
      (fun v hv => beq_false_of_ne (hid2 v hv))
    have hupd := update_user_sandwich l1 l2 { u with session_id := none }
      [("session_id", Value.null)] hid1 hid2
    simp only [destroy_session, hfind, hupd]
    rfl
  · intro db uid h
    have hfind := findUserBy_none (fun v => v.id == uid) db
      (fun v hv => beq_false_of_ne (h v hv))
    simp only [destroy_session, hfind]

/-- Witness for `destroy_session_spec`: one user with an active session
token T. -/
theorem destroy_session_spec_witness :
    (destroy_session [User.mk 1 "a@x.com" "H" (some "T") none] 1 =
      ([User.mk 1 "a@x.com" "H" none none], none)) ∧
    (get_user_from_session_id [User.mk 1 "a@x.com" "H" none none]
        (some "T") = none) ∧
    (destroy_session [User.mk 1 "a@x.com" "H" none none] 1 =
      ([User.mk 1 "a@x.com" "H" none none], none)) ∧
    (∀ (db : List User) (uid : Nat), (∀ v ∈ db, v.id ≠ uid) →
      destroy_session db uid = (db, none)) :=
  destroy_session_spec [] [] (User.mk 1 "a@x.com" "H" (some "T") none) "T"
    rfl (by simp) (by simp) (by simp) (by simp)

/-- Claim C9: for the lifecycle-manager variant, `create_session` on the
unique record for a registered email stores the fresh token on that record
and returns it, and resolving that token immediately afterwards returns
the same user's email; for an email matching no record `create_session`
returns `Except.ok none` (Python `None`) with the store unchanged; and
resolving a `None` token returns `none`. -/
theorem create_resolve_session_spec (l1 l2 : List User) (u : User)
    (email fresh : String) (hu : u.email = email)
    (he1 : ∀ v ∈ l1, v.email ≠ email) (he2 : ∀ v ∈ l2, v.email ≠ email)
    (hid1 : ∀ v ∈ l1, v.id ≠ u.id) (hid2 : ∀ v ∈ l2, v.id ≠ u.id)
    (hf1 : ∀ v ∈ l1, v.session_id ≠ some fresh)
    (hf2 : ∀ v ∈ l2, v.session_id ≠ some fresh) :
    (create_session (l1 ++ u :: l2) email fresh =
      (l1 ++ { u with session_id := some fresh } :: l2,
       Except.ok (some fresh))) ∧
    (get_user_from_session_id (l1 ++ { u with session_id := some fresh } :: l2)
        (some fresh) = some u.email) ∧
    (∀ db : List User, (∀ v ∈ db, v.email ≠ email) →
      create_session db email fresh = (db, Except.ok none)) ∧
    (∀ db : List User, get_user_from_session_id db none = none) := by
  refine ⟨?_, ?_, ?_, fun db => rfl⟩
  · have hfind := findUserBy_sandwich (fun v => v.email == email) l1 l2 u
      (by simp [hu]) (fun v hv => beq_false_of_ne (he1 v hv))
      (fun v hv => beq_false_of_ne (he2 v hv))
    have hupd := update_user_sandwich l1 l2 u [("session_id", Value.str fresh)]
      hid1 hid2
    simp only [create_session, hfind, hupd]
    rfl
  · have hfind := findUserBy_sandwich (fun v => v.session_id == some fresh)
      l1 l2 { u with session_id := some fresh } (by simp)
      (fun v hv => beq_false_of_ne (hf1 v hv))
      (fun v hv => beq_false_of_ne (hf2 v hv))
    simp only [get_user_from_session_id, hfind]
    rfl
  · intro db hdb
    have hfind := findUserBy_none (fun v => v.email == email) db
      (fun v hv => beq_false_of_ne (hdb v hv))
    simp only [create_session, hfind]

/-- Witness for `create_resolve_session_spec`: one registered user, fresh
token T. -/
theorem create_resolve_session_spec_witness :
    (create_session [User.mk 1 "a@x.com" "H" none none] "a@x.com" "T" =
      ([User.mk 1 "a@x.com" "H" (some "T") none], Except.ok (some "T"))) ∧
    (get_user_from_session_id [User.mk 1 "a@x.com" "H" (some "T") none]
        (some "T") = some "a@x.com") ∧
    (∀ db : List User, (∀ v ∈ db, v.email ≠ "a@x.com") →
      create_session db "a@x.com" "T" = (db, Except.ok none)) ∧
    (∀ db : List User, get_user_from_session_id db none = none) :=
  create_resolve_session_spec [] [] (User.mk 1 "a@x.com" "H" none none)
    "a@x.com" "T" rfl (by simp) (by simp) (by simp) (by simp) (by simp)
    (by simp)

/-- Claim C10: the POST /reset_password handler does not leave the user's
session-token field unchanged: before issuing the reset token it calls
`create_session`, which overwrites the stored session token with the fresh
one, so the final record carries the new session token (different from the
old value) alongside the issued reset token. -/
theorem reset_route_overwrites_session (l1 l2 : List User) (u : User)
    (email sessFresh tokFresh : String) (hu : u.email = email)
    (hne : sessFresh ≠ "") (hold : u.session_id ≠ some sessFresh)
    (he1 : ∀ v ∈ l1, v.email ≠ email) (he2 : ∀ v ∈ l2, v.email ≠ email)
    (hid1 : ∀ v ∈ l1, v.id ≠ u.id) (hid2 : ∀ v ∈ l2, v.id ≠ u.id) :
    (reset_password_route (l1 ++ u :: l2) email sessFresh tokFresh =
      (l1 ++ { u with session_id := some sessFresh,
                      reset_token := some tokFresh } :: l2,
       some tokFresh)) ∧
    ({ u with session_id := some sessFresh,
              reset_token := some tokFresh } : User).session_id ≠
      u.session_id := by
  constructor
  · have hfind := findUserBy_sandwich (fun v => v.email == email) l1 l2 u
      (by simp [hu]) (fun v hv => beq_false_of_ne (he1 v hv))
      (fun v hv => beq_false_of_ne (he2 v hv))
    have hupd := update_user_sandwich l1 l2 u [("session_id", Value.str sessFresh)]
      hid1 hid2
    have hfind2 := findUserBy_sandwich (fun v => v.email == email) l1 l2
      { u with session_id := some sessFresh } (by simp [hu])
      (fun v hv => beq_false_of_ne (he1 v hv))
      (fun v hv => beq_false_of_ne (he2 v hv))
    have hupd2 := update_user_sandwich l1 l2 { u with session_id := some sessFresh }
      [("reset_token", Value.str tokFresh)] hid1 hid2
    have hak : applyKwargs u [("session_id", Value.str sessFresh)] =
        ({ u with session_id := some sessFresh }, none) := rfl
    have hak2 : applyKwargs { u with session_id := some sessFresh }
        [("reset_token", Value.str tokFresh)] =
        ({ u with session_id := some sessFresh,
                  reset_token := some tokFresh }, none) := rfl
    simp only [reset_password_route, create_session, hfind, hupd, hak]
    rw [if_neg hne]
    simp only [issueResetToken, hfind2, hupd2, hak2]
  · intro h
    exact hold (by simpa using h.symm)

/-- Witness for `reset_route_overwrites_session`: one registered user with
old session token OLD; the route stores fresh session token S and reset
token R. -/
theorem reset_route_overwrites_session_witness :
    (reset_password_route [User.mk 1 "a@x.com" "H" (some "OLD") none]
        "a@x.com" "S" "R" =
      ([User.mk 1 "a@x.com" "H" (some "S") (some "R")], some "R")) ∧
    (User.mk 1 "a@x.com" "H" (some "S") (some "R")).session_id ≠
      (User.mk 1 "a@x.com" "H" (some "OLD") none).session_id :=
  reset_route_overwrites_session [] []
    (User.mk 1 "a@x.com" "H" (some "OLD") none) "a@x.com" "S" "R" rfl
    (by decide) (by decide) (by simp) (by simp) (by simp) (by simp)

end AlxAuth
